import Mathlib

/-!
Verification of the Stellar trustline/claimable-balance manager.

The definitions below are a shallow embedding of the repository's API route
handlers (the Transaction Orchestrator) and of the bulk-action coordinator in
the claimable-balances component.  Asynchronous gateway calls (Horizon account
load, claimable-balance load, transaction submission) are modelled by an
explicit environment record holding each call's outcome; every route function
returns its HTTP-style response together with the number of gateway calls it
performed before returning. Amount, asset and identity values are kept as the
strings the code manipulates.
-/

namespace Stellar

/-- An asset as composed by the routes: the network's native asset or a
(code, issuer) pair, mirroring `Asset.native()` / `new Asset(code, issuer)`. -/
inductive Asset where
  | native
  | alphanum (code issuer : String)
deriving DecidableEq, Repr

/-- One ledger operation as attached by `builder.addOperation(...)`. -/
inductive Op where
  | payment (destination : String) (asset : Asset) (amount : String)
  | changeTrust (asset : Asset) (limit : String)
  | claimClaimableBalance (balanceId : String)
deriving DecidableEq, Repr

/-- One entry of `account.balances`.  On native balance lines the
`asset_code` / `asset_issuer` fields are absent, hence the `Option`. -/
structure BalanceLine where
  asset_code : Option String
  asset_issuer : Option String
  balance : String
deriving DecidableEq, Repr

/-- The part of the loaded account snapshot the routes read. -/
structure AccountSnapshot where
  balances : List BalanceLine
deriving DecidableEq, Repr

/-- The part of a loaded claimable-balance record the routes read:
`balanceRecord.asset` (the combined "CODE:ISSUER" string, or "native"),
`balanceRecord.amount` and `balanceRecord.sponsor`. -/
structure ClaimableBalanceRecord where
  asset : String
  amount : String
  sponsor : String
deriving DecidableEq, Repr

/-- A route's JSON response: HTTP status, optional `error` field, optional
`hash` field. -/
structure RouteResponse where
  status : Nat
  error : Option String
  hash : Option String
deriving DecidableEq, Repr

/-- A transaction-submission failure as seen in the routes' catch blocks:
the `Error`'s message, and, when Horizon attached them, the ledger result
codes (`e.response.data.extras.result_codes`, modelled in their serialized
string form). -/
structure SubmitError where
  message : String
  resultCodes : Option String
deriving DecidableEq, Repr

/-- An error object as inspected by the send-asset route's catch block:
`error.message`, `error.response?.status` and `error.response?.data?.title`. -/
structure JsError where
  message : String
  responseStatus : Option Nat
  responseTitle : Option String
deriving DecidableEq, Repr

/-- Split of a character list at every occurrence of a separator character,
with the semantics of the JavaScript one-character string split: the list of
(possibly empty) groups between separators, never empty. -/
def splitOnChar (sep : Char) : List Char → List (List Char)
  | [] => [[]]
  | c :: rest =>
    let r := splitOnChar sep rest
    if c = sep then [] :: r
    else
      match r with
      | [] => [[c]]
      | g :: gs => (c :: g) :: gs

/-- Split of a string on a one-character separator, as the routes use
`String.prototype.split` with separator ":" (and the amount reading below
with separator "."). -/
def jsSplit (sep : Char) (s : String) : List String :=
  (splitOnChar sep s.data).map String.mk

/-- Asset parsing shared by the claim and reject routes: asset starts null;
only when the record's asset string is truthy, differs from "native", and
splits on ":" into exactly two parts is it set to the (code, issuer) asset.
A falsy (empty) or "native" asset string, and any string that does not split
into exactly two parts, leaves it null (here `none`), i.e. the native
fallback. -/
def parseAssetOpt (a : String) : Option Asset :=
  if a = "" ∨ a = "native" then none
  else
    match jsSplit ':' a with
    | [code, issuer] => some (Asset.alphanum code issuer)
    | _ => none

/-- Asset parsing in the claimable-balance listing route (src/unnamed/part_000
lines 70-88): defaults `assetCode = "XLM"`, `assetIssuer = "native"`,
overwritten only when the asset string is truthy, not "native", and splits on
":" into exactly two parts. -/
def listingAsset (asset : String) : String × String :=
  if asset = "" ∨ asset = "native" then ("XLM", "native")
  else
    match jsSplit ':' asset with
    | [code, issuer] => (code, issuer)
    | _ => ("XLM", "native")

/-- The maximum-representable trust limit literal used by the claim and reject
routes. -/
def maxTrustLimit : String := "922337203685.4775807"

/-- Operation plan built by the claim route (src/app/api/claimable/claim/route.ts
lines 84-106): a maximum-limit changeTrust first when the parsed asset is
non-native, then the claim operation. -/
def claimPlan (balanceId : String) (record : ClaimableBalanceRecord) : List Op :=
  (match parseAssetOpt record.asset with
   | some a => [Op.changeTrust a maxTrustLimit]
   | none => []) ++
  [Op.claimClaimableBalance balanceId]

/-- Operation plan built by the reject route (src/app/api/claimable/reject/route.ts
lines 84-121): a maximum-limit changeTrust first when the parsed asset is
non-native, then the claim, then a payment of the record's amount to its
sponsor, then a zero-limit changeTrust on `asset || Asset.native()` — the last
step is added unconditionally in the source, also when the asset is native. -/
def rejectPlan (balanceId : String) (record : ClaimableBalanceRecord) : List Op :=
  let asset := parseAssetOpt record.asset
  (match asset with
   | some a => [Op.changeTrust a maxTrustLimit]
   | none => []) ++
  [Op.claimClaimableBalance balanceId,
   Op.payment record.sponsor (asset.getD Asset.native) record.amount,
   Op.changeTrust (asset.getD Asset.native) "0"]

/-- The trustline lookup in the remove-trustline route (src/unnamed/part_002
lines 66-69): `balances.find(b => b.asset_code === assetCode &&
b.asset_issuer === assetIssuer)`. -/
def matchingTrustline (balances : List BalanceLine) (assetCode assetIssuer : String) :
    Option BalanceLine :=
  balances.find? (fun b => b.asset_code == some assetCode && b.asset_issuer == some assetIssuer)

/-- The `trustlineBalance` variable of the remove-trustline route (lines 65,
71-73): starts at "0" and is overwritten with the found line's balance only
when that balance string is truthy (non-empty) and differs from "0". -/
def trustlineBalanceOf (t : Option BalanceLine) : String :=
  match t with
  | some l => if l.balance ≠ "" ∧ l.balance ≠ "0" then l.balance else "0"
  | none => "0"

/-- Operation plan built by the remove-trustline route (src/unnamed/part_002
lines 76-100): a payment of the full trustline balance to the issuer first when
`trustlineBalance !== "0"`, then the zero-limit changeTrust. -/
def removeTrustlinePlan (account : AccountSnapshot) (assetCode assetIssuer : String) :
    List Op :=
  let tb := trustlineBalanceOf (matchingTrustline account.balances assetCode assetIssuer)
  (if tb ≠ "0" then [Op.payment assetIssuer (Asset.alphanum assetCode assetIssuer) tb]
   else []) ++
  [Op.changeTrust (Asset.alphanum assetCode assetIssuer) "0"]

/-- Transaction validity window set by the remove-trustline route:
`.setTimeout(180)` (src/unnamed/part_002 line 100). -/
def removeTrustlineTxTimeout : Nat := 180

/-- Transaction validity window set by the claim route: `.setTimeout(180)`
(src/app/api/claimable/claim/route.ts line 104). -/
def claimTxTimeout : Nat := 180

/-- Transaction validity window set by the reject route: `.setTimeout(180)`
(src/app/api/claimable/reject/route.ts line 119). -/
def rejectTxTimeout : Nat := 180

/-- Transaction validity window set by the send-asset route: `.setTimeout(30)`
(src/unnamed/part_003, send handler). -/
def sendAssetTxTimeout : Nat := 30

/-- Failure message produced by the claim route's submission catch block:
when ledger result codes are present the message is
`Transaction failed: <serialized result codes>`, otherwise the error's own
message. -/
def claimSubmitErrorMsg (e : SubmitError) : String :=
  match e.resultCodes with
  | some rc => "Transaction failed: " ++ rc
  | none => e.message

/-- Failure message produced by the reject route's submission catch block,
identical in shape to the claim route's. -/
def rejectSubmitErrorMsg (e : SubmitError) : String :=
  match e.resultCodes with
  | some rc => "Transaction failed: " ++ rc
  | none => e.message

/-- Failure message produced by the remove-trustline route's submission catch
block (src/unnamed/part_002 lines 110-117): only `e.message`, with no
extraction of ledger result codes. -/
def removeTrustlineSubmitErrorMsg (e : SubmitError) : String :=
  e.message

/-- Classification performed by the send-asset route's catch block:
message containing "Invalid" gives 400 with the message; a response status of
400 gives 400 with the response title (falling back to the message); a message
containing "Not Found" gives 404; anything else gives a generic 500. -/
def sendCatch (e : JsError) : Nat × String :=
  if "Invalid".data <:+: e.message.data then (400, e.message)
  else if e.responseStatus = some 400 then
    (400, match e.responseTitle with
          | some t => if t = "" then e.message else t
          | none => e.message)
  else if "Not Found".data <:+: e.message.data then
    (404, "Recipient account not found")
  else (500, "Failed to send asset")

/-- Index of a character in the RFC 4648 base-32 alphabet used by strkey. -/
def b32Index (c : Char) : Option Nat :=
  if 'A' ≤ c ∧ c ≤ 'Z' then some (c.toNat - 'A'.toNat)
  else if '2' ≤ c ∧ c ≤ '7' then some (c.toNat - '2'.toNat + 26)
  else none

/-- One byte step of CRC16-XModem (polynomial 0x1021, initial value 0). -/
def crc16Step (crc b : Nat) : Nat :=
  (List.range 8).foldl
    (fun c _ => if c / 32768 % 2 = 1 then (Nat.xor (c * 2) 4129) % 65536
                else (c * 2) % 65536)
    ((Nat.xor crc (b * 256)) % 65536)

/-- CRC16-XModem over a byte list. -/
def crc16 (bytes : List Nat) : Nat :=
  bytes.foldl crc16Step 0

/-- Little-endian byte decomposition of a natural number into `k` bytes. -/
def natToBytesLE : Nat → Nat → List Nat
  | 0, _ => []
  | k + 1, n => n % 256 :: natToBytesLE k (n / 256)

/-- Modelled from the spec: the Credential Resolver's cryptographic
derivation (`Keypair.fromSecret`, provided by the stellar-sdk dependency and
therefore not part of this repository's sources).  Per the spec it validates
the secret-key sigil, the exact length, the encoding alphabet and the
checksum: a secret succeeds exactly when it is 56 base-32 characters decoding
to 35 bytes whose first byte is the seed version byte (144) and whose last two
bytes are the little-endian CRC16-XModem checksum of the first 33. -/
def fromSecretOk (s : String) : Bool :=
  s.length == 56 && s.data.all (fun c => (b32Index c).isSome) &&
  (let n := s.data.foldl (fun a c => a * 32 + ((b32Index c).getD 0)) 0
   let bytes := (natToBytesLE 35 n).reverse
   bytes.getD 0 0 == 144 &&
   crc16 (bytes.take 33) == bytes.getD 33 0 + 256 * bytes.getD 34 0)

/-- Modelled from the spec: the message carried by the Credential Resolver's
`InvalidCredentialFormat` failure, matching the string this repository's own
routes use for that failure class. -/
def resolverErrorMessage : String := "Invalid secret key format"

/-- The sigil pre-check of the routes: whether the secret string starts with
the secret-key sigil character. -/
def startsWithS (s : String) : Bool :=
  match s.data with
  | c :: _ => c == 'S'
  | [] => false

/-- The shared request-validation prefix of the claim, reject and
remove-trustline routes, run before any gateway call: missing-field check,
secret sigil/length pre-check, network check, then the cryptographic
derivation.  Returns the error response it short-circuits with, if any. -/
def stdGuards (secretKey network : String) (missingField : Bool) : Option RouteResponse :=
  if missingField then some ⟨400, some "Missing required fields", none⟩
  else if startsWithS secretKey = false ∨ secretKey.length ≠ 56 then
    some ⟨400, some "Invalid secret key format", none⟩
  else if network ≠ "public" ∧ network ≠ "testnet" then
    some ⟨400, some "Invalid network", none⟩
  else if fromSecretOk secretKey = false then
    some ⟨400, some "Invalid secret key format", none⟩
  else none

/-- Outcomes of the gateway calls a claim or reject request can make, in call
order: account load, claimable-balance load, transaction submission. -/
structure GatewayEnv where
  loadAccount : Except String AccountSnapshot
  loadClaimableBalance : Except String ClaimableBalanceRecord
  submit : Except SubmitError String
deriving Repr

/-- The claim route (src/app/api/claimable/claim/route.ts), returning its
response and the number of gateway calls it performed. -/
def claimRoute (secretKey network balanceId : String) (env : GatewayEnv) :
    RouteResponse × Nat :=
  match stdGuards secretKey network (secretKey == "" || network == "" || balanceId == "") with
  | some r => (r, 0)
  | none =>
    match env.loadAccount with
    | .error m => (⟨400, some ("Account error: " ++ m), none⟩, 1)
    | .ok _ =>
      match env.loadClaimableBalance with
      | .error m => (⟨400, some ("Balance error: " ++ m), none⟩, 2)
      | .ok _ =>
        match env.submit with
        | .error e => (⟨400, some (claimSubmitErrorMsg e), none⟩, 3)
        | .ok h => (⟨200, none, some h⟩, 3)

/-- The reject route (src/app/api/claimable/reject/route.ts), returning its
response and the number of gateway calls it performed. -/
def rejectRoute (secretKey network balanceId : String) (env : GatewayEnv) :
    RouteResponse × Nat :=
  match stdGuards secretKey network (secretKey == "" || network == "" || balanceId == "") with
  | some r => (r, 0)
  | none =>
    match env.loadAccount with
    | .error m => (⟨400, some ("Account error: " ++ m), none⟩, 1)
    | .ok _ =>
      match env.loadClaimableBalance with
      | .error m => (⟨400, some ("Balance error: " ++ m), none⟩, 2)
      | .ok _ =>
        match env.submit with
        | .error e => (⟨400, some (rejectSubmitErrorMsg e), none⟩, 3)
        | .ok h => (⟨200, none, some h⟩, 3)

/-- Outcomes of the gateway calls a remove-trustline request can make, in call
order: account load, transaction submission. -/
structure RemoveEnv where
  loadAccount : Except String AccountSnapshot
  submit : Except SubmitError String
deriving Repr

/-- The remove-trustline route (src/unnamed/part_002), returning its response
and the number of gateway calls it performed. -/
def removeTrustlineRoute (secretKey network assetCode assetIssuer : String)
    (env : RemoveEnv) : RouteResponse × Nat :=
  match stdGuards secretKey network
      (secretKey == "" || network == "" || assetCode == "" || assetIssuer == "") with
  | some r => (r, 0)
  | none =>
    match env.loadAccount with
    | .error m => (⟨400, some ("Account error: " ++ m), none⟩, 1)
    | .ok _ =>
      match env.submit with
      | .error e => (⟨400, some (removeTrustlineSubmitErrorMsg e), none⟩, 2)
      | .ok h => (⟨200, none, some h⟩, 2)

/-- Outcomes of the gateway calls a send-asset request can make, in call order:
account load, transaction submission.  Both surface as thrown errors handled
by the route's single catch block. -/
structure SendEnv where
  loadAccount : Except JsError AccountSnapshot
  submit : Except JsError String
deriving Repr

/-- The send-asset route (src/unnamed/part_003, send handler): a missing-field
check on secret, recipient, asset code and amount, then the unguarded
credential derivation (whose failure is classified by the catch block), then
account load, issuer presence check for non-native assets, and submission. -/
def sendRoute (secretKey network recipientAddress assetCode assetIssuer amount : String)
    (env : SendEnv) : RouteResponse × Nat :=
  if secretKey == "" || recipientAddress == "" || assetCode == "" || amount == "" then
    (⟨400, some "Missing required parameters", none⟩, 0)
  else if fromSecretOk secretKey = false then
    (⟨(sendCatch ⟨resolverErrorMessage, none, none⟩).1,
      some (sendCatch ⟨resolverErrorMessage, none, none⟩).2, none⟩, 0)
  else
    match env.loadAccount with
    | .error e => (⟨(sendCatch e).1, some (sendCatch e).2, none⟩, 1)
    | .ok _ =>
      if assetCode ≠ "XLM" ∧ assetIssuer = "" then
        (⟨400, some "Asset issuer is required for non-native assets", none⟩, 1)
      else
        match env.submit with
        | .error e => (⟨(sendCatch e).1, some (sendCatch e).2, none⟩, 2)
        | .ok h => (⟨200, none, some h⟩, 2)

/-- One selected balance as iterated by the bulk coordinator
(src/components/claimable-balances.tsx): id, amount and asset code. -/
structure BulkTarget where
  id : String
  amount : String
  asset : String
deriving DecidableEq, Repr

/-- Outcome of one per-target request inside the bulk loop: an ok response,
a non-ok response carrying an optional `data.error` field, or a thrown
exception carrying a message when it was an `Error` instance. -/
inductive BulkOutcome where
  | ok
  | apiError (errField : Option String)
  | thrown (errMessage : Option String)
deriving DecidableEq, Repr

/-- The message used for a non-ok response: `data.error || "Unknown error"`
(a missing or empty error field falls back). -/
def apiErrorMsg : Option String → String
  | some m => if m = "" then "Unknown error" else m
  | none => "Unknown error"

/-- The message used for a thrown exception:
`e instanceof Error ? e.message : "Network error"`. -/
def thrownMsg : Option String → String
  | some m => m
  | none => "Network error"

/-- The formatted failure-list entry pushed by the bulk loop: the target's
amount, a space, its asset code, then ": " and the error message. -/
def failureEntry (b : BulkTarget) (msg : String) : String :=
  b.amount ++ " " ++ b.asset ++ ": " ++ msg

/-- One iteration of the bulk loop: a success increments the counter, any
failure appends its formatted entry; the loop then continues either way. -/
def bulkStep (acc : Nat × List String) (t : BulkTarget × BulkOutcome) : Nat × List String :=
  match t.2 with
  | .ok => (acc.1 + 1, acc.2)
  | .apiError e => (acc.1, acc.2 ++ [failureEntry t.1 (apiErrorMsg e)])
  | .thrown e => (acc.1, acc.2 ++ [failureEntry t.1 (thrownMsg e)])

/-- The bulk coordinator `handleBulkProcess` (src/components/claimable-balances.tsx
lines 81-137): iterate the selected targets in order, pairing each with the
outcome its request produced, and fold up the success count and failure list. -/
def handleBulkProcess (targets : List (BulkTarget × BulkOutcome)) : Nat × List String :=
  targets.foldl bulkStep (0, [])

/-- Number of targets in a batch whose request succeeded. -/
def countOk : List (BulkTarget × BulkOutcome) → Nat
  | [] => 0
  | (_, .ok) :: ts => countOk ts + 1
  | (_, .apiError _) :: ts => countOk ts
  | (_, .thrown _) :: ts => countOk ts

/-- The ordered failure entries of a batch: one formatted entry per failing
target, in iteration order. -/
def failuresOf : List (BulkTarget × BulkOutcome) → List String
  | [] => []
  | (_, .ok) :: ts => failuresOf ts
  | (b, .apiError e) :: ts => failureEntry b (apiErrorMsg e) :: failuresOf ts
  | (b, .thrown e) :: ts => failureEntry b (thrownMsg e) :: failuresOf ts

/-- Natural-number reading of a non-empty all-digit character list.  Helper
for `decValue`, which is used only to state "the balance line's amount is
nonzero" semantically. -/
def digitsToNat (l : List Char) : Option Nat :=
  if l ≠ [] ∧ l.all Char.isDigit then
    some (l.foldl (fun a c => a * 10 + (c.toNat - 48)) 0)
  else none

/-- Value of a plain decimal string, as (numerator, number of fraction
digits), the denoted amount being numerator / 10 ^ d. -/
def decValue (s : String) : Option (Nat × Nat) :=
  match splitOnChar '.' s.data with
  | [a] => (digitsToNat a).map (fun n => (n, 0))
  | [a, b] =>
    match digitsToNat a, digitsToNat b with
    | some x, some y => some (x * 10 ^ b.length + y, b.length)
    | _, _ => none
  | _ => none

/-- A concrete gateway environment where every call fails (used to witness
that validation failures consult no gateway call). -/
def env0 : GatewayEnv :=
  ⟨.error "offline", .error "offline", .error ⟨"offline", none⟩⟩

/-- A concrete remove-trustline environment where every call fails. -/
def removeEnv0 : RemoveEnv :=
  ⟨.error "offline", .error ⟨"offline", none⟩⟩

/-- A concrete send-asset environment where every call fails. -/
def sendEnv0 : SendEnv :=
  ⟨.error ⟨"offline", none, none⟩, .error ⟨"offline", none, none⟩⟩

/-- The spec's malformed-secret scenario input: "S" followed by 55 "A"
characters (56 characters, valid sigil, garbage body). -/
def badSecret : String := "S" ++ String.mk (List.replicate 55 'A')

/-! Helper lemmas shared by the claim theorems below. -/

theorem bulk_foldl_characterization (ts : List (BulkTarget × BulkOutcome)) :
    ∀ (c : Nat) (es : List String),
      ts.foldl bulkStep (c, es) = (c + countOk ts, es ++ failuresOf ts) := by
  induction ts with
  | nil => intro c es; simp [countOk, failuresOf]
  | cons t ts ih =>
    intro c es
    obtain ⟨b, o⟩ := t
    cases o with
    | ok =>
      show ts.foldl bulkStep (c + 1, es) = _
      rw [ih]
      simp only [countOk, failuresOf, Prod.mk.injEq]
      exact ⟨by omega, trivial⟩
    | apiError e =>
      show ts.foldl bulkStep (c, es ++ [failureEntry b (apiErrorMsg e)]) = _
      rw [ih]
      simp [countOk, failuresOf]
    | thrown e =>
      show ts.foldl bulkStep (c, es ++ [failureEntry b (thrownMsg e)]) = _
      rw [ih]
      simp [countOk, failuresOf]

theorem countOk_add_failures (ts : List (BulkTarget × BulkOutcome)) :
    countOk ts + (failuresOf ts).length = ts.length := by
  induction ts with
  | nil => rfl
  | cons t ts ih =>
    obtain ⟨b, o⟩ := t
    cases o <;> simp [countOk, failuresOf] <;> omega

theorem decValue_nonzero_ne {b : String} {n d : Nat}
    (h : decValue b = some (n, d)) (hn : n ≠ 0) : b ≠ "0" ∧ b ≠ "" := by
  constructor <;> rintro rfl
  · rw [show decValue "0" = some (0, 0) from by decide] at h
    simp only [Option.some.injEq, Prod.mk.injEq] at h
    exact hn h.1.symm
  · rw [show decValue "" = none from by decide] at h
    cases h

theorem removeTrustlinePlan_found {acct : AccountSnapshot} {code issuer : String}
    {line : BalanceLine} (h : matchingTrustline acct.balances code issuer = some line)
    (h0 : line.balance ≠ "0") (hne : line.balance ≠ "") :
    removeTrustlinePlan acct code issuer =
      [Op.payment issuer (Asset.alphanum code issuer) line.balance,
       Op.changeTrust (Asset.alphanum code issuer) "0"] := by
  have htb : trustlineBalanceOf (matchingTrustline acct.balances code issuer) = line.balance := by
    rw [h]
    show (if line.balance ≠ "" ∧ line.balance ≠ "0" then line.balance else "0") = line.balance
    exact if_pos ⟨hne, h0⟩
  simp only [removeTrustlinePlan, htb]
  rw [if_pos h0]
  rfl

theorem removeTrustlinePlan_none {acct : AccountSnapshot} {code issuer : String}
    (h : matchingTrustline acct.balances code issuer = none) :
    removeTrustlinePlan acct code issuer =
      [Op.changeTrust (Asset.alphanum code issuer) "0"] := by
  simp [removeTrustlinePlan, h, trustlineBalanceOf]

theorem parseAssetOpt_of_not_two {a : String}
    (hsplit : (jsSplit ':' a).length ≠ 2) : parseAssetOpt a = none := by
  rw [parseAssetOpt]
  by_cases he : a = "" ∨ a = "native"
  · rw [if_pos he]
  · rw [if_neg he]
    cases hl : jsSplit ':' a with
    | nil => rfl
    | cons x tl =>
      cases tl with
      | nil => rfl
      | cons y tl2 =>
        cases tl2 with
        | nil => exact absurd (by rw [hl]; rfl) hsplit
        | cons z tl3 => rfl

theorem listingAsset_of_not_two {a : String}
    (hsplit : (jsSplit ':' a).length ≠ 2) : listingAsset a = ("XLM", "native") := by
  rw [listingAsset]
  by_cases he : a = "" ∨ a = "native"
  · rw [if_pos he]
  · rw [if_neg he]
    cases hl : jsSplit ':' a with
    | nil => rfl
    | cons x tl =>
      cases tl with
      | nil => rfl
      | cons y tl2 =>
        cases tl2 with
        | nil => exact absurd (by rw [hl]; rfl) hsplit
        | cons z tl3 => rfl

theorem stdGuards_malformed (s n : String) (missing : Bool) (hmiss : missing = false)
    (hn : n = "public" ∨ n = "testnet")
    (hs : startsWithS s = false ∨ s.length ≠ 56 ∨ fromSecretOk s = false) :
    stdGuards s n missing = some ⟨400, some "Invalid secret key format", none⟩ := by
  subst hmiss
  rw [stdGuards, if_neg (by simp)]
  by_cases hpre : startsWithS s = false ∨ s.length ≠ 56
  · rw [if_pos hpre]
  · rw [if_neg hpre]
    have hnet : ¬(n ≠ "public" ∧ n ≠ "testnet") := by
      rcases hn with h | h <;> simp [h]
    rw [if_neg hnet]
    have hfs : fromSecretOk s = false := by
      rcases hs with h | h | h
      · exact absurd (Or.inl h) hpre
      · exact absurd (Or.inr h) hpre
      · exact h
    rw [if_pos hfs]

set_option maxRecDepth 80000 in
theorem badSecret_fromSecret_fails : fromSecretOk badSecret = false := by
  decide

/-! Claim theorems. -/

/-- C1: evaluation of the reject route's operation plan at a native-asset
claimable-balance record.  The spec claims the native plan has exactly 2 steps
(claim, payment-to-sponsor); the code emits 3, appending a zero-limit
changeTrust on the native asset unconditionally, contradicting its own inline
comment that the trustline removal is for the non-native case. -/
theorem c1_reject_native_plan_three_steps :
    rejectPlan "B1" ⟨"native", "5.0000000", "GSPONSOR"⟩ =
      [Op.claimClaimableBalance "B1",
       Op.payment "GSPONSOR" Asset.native "5.0000000",
       Op.changeTrust Asset.native "0"] ∧
    (rejectPlan "B1" ⟨"native", "5.0000000", "GSPONSOR"⟩).length ≠ 2 := by
  decide

/-- C2: a Remove-Trustline request whose matching balance line carries a
nonzero amount (read semantically through `decValue`) yields the plan
[full-amount payment to the issuer, zero-limit trust change] in exactly that
order, and a request with no matching balance line yields the zero-limit step
alone. -/
theorem c2_remove_trustline_plan_shape :
    (∀ (acct : AccountSnapshot) (code issuer : String) (line : BalanceLine) (n d : Nat),
      matchingTrustline acct.balances code issuer = some line →
      decValue line.balance = some (n, d) → n ≠ 0 →
      removeTrustlinePlan acct code issuer =
        [Op.payment issuer (Asset.alphanum code issuer) line.balance,
         Op.changeTrust (Asset.alphanum code issuer) "0"]) ∧
    (∀ (acct : AccountSnapshot) (code issuer : String),
      matchingTrustline acct.balances code issuer = none →
      removeTrustlinePlan acct code issuer =
        [Op.changeTrust (Asset.alphanum code issuer) "0"]) := by
  refine ⟨fun acct code issuer line n d h hdv hn => ?_,
          fun acct code issuer h => removeTrustlinePlan_none h⟩
  obtain ⟨h0, hne⟩ := decValue_nonzero_ne hdv hn
  exact removeTrustlinePlan_found h h0 hne

/-- C2 witness: the theorem applied to a one-line snapshot holding 3.5 USDC
and to an empty snapshot. -/
theorem c2_remove_trustline_plan_shape_witness :
    removeTrustlinePlan ⟨[⟨some "USDC", some "GISS", "3.5"⟩]⟩ "USDC" "GISS" =
      [Op.payment "GISS" (Asset.alphanum "USDC" "GISS") "3.5",
       Op.changeTrust (Asset.alphanum "USDC" "GISS") "0"] ∧
    removeTrustlinePlan ⟨[]⟩ "USDC" "GISS" =
      [Op.changeTrust (Asset.alphanum "USDC" "GISS") "0"] :=
  ⟨c2_remove_trustline_plan_shape.1 ⟨[⟨some "USDC", some "GISS", "3.5"⟩]⟩ "USDC" "GISS"
      ⟨some "USDC", some "GISS", "3.5"⟩ 35 1 (by decide) (by decide) (by decide),
   c2_remove_trustline_plan_shape.2 ⟨[]⟩ "USDC" "GISS" (by decide)⟩

/-- C3: for every batch, including the empty one, the bulk report satisfies
successCount + number of failure messages = number of targets attempted. -/
theorem c3_bulk_report_invariant (targets : List (BulkTarget × BulkOutcome)) :
    (handleBulkProcess targets).1 + (handleBulkProcess targets).2.length = targets.length := by
  rw [handleBulkProcess, bulk_foldl_characterization]
  simpa using countOk_add_failures targets

/-- C6: the bulk coordinator folds over every selected target in order — a
success increments the counter, a failure appends its formatted
"amount asset: message" entry, and iteration continues past failures; in
particular, on a 3-target batch whose second target fails, the report is
successCount = 2 with the single failure entry for target 2, target 3 having
been attempted and counted. -/
theorem c6_bulk_sequential_fold :
    (∀ targets, handleBulkProcess targets = (countOk targets, failuresOf targets)) ∧
    handleBulkProcess
      [(⟨"balA", "10", "USDC"⟩, .ok),
       (⟨"balB", "5", "XLM"⟩, .apiError (some "tx_failed")),
       (⟨"balC", "7", "EURT"⟩, .ok)] = (2, ["5 XLM: tx_failed"]) := by
  constructor
  · intro targets
    rw [handleBulkProcess, bulk_foldl_characterization]
    simp
  · decide

/-- C5: a Claim-Balance plan for a native-asset record is exactly the claim
operation, with no trustline step; for a record whose asset parses as
non-native, the plan is the maximum-limit trust-establish step followed by the
claim step. -/
theorem c5_claim_plan_shape :
    (∀ (balanceId : String) (record : ClaimableBalanceRecord),
      record.asset = "native" →
      claimPlan balanceId record = [Op.claimClaimableBalance balanceId]) ∧
    (∀ (balanceId : String) (record : ClaimableBalanceRecord) (a : Asset),
      parseAssetOpt record.asset = some a →
      claimPlan balanceId record =
        [Op.changeTrust a maxTrustLimit, Op.claimClaimableBalance balanceId]) := by
  constructor
  · intro bid rec h
    simp [claimPlan, parseAssetOpt, h]
  · intro bid rec a h
    simp [claimPlan, h]

/-- C5 witness: the theorem applied to a native record and to a USDC record. -/
theorem c5_claim_plan_shape_witness :
    claimPlan "B1" ⟨"native", "5", "GS"⟩ = [Op.claimClaimableBalance "B1"] ∧
    claimPlan "B1" ⟨"USDC:GISS", "5", "GS"⟩ =
      [Op.changeTrust (Asset.alphanum "USDC" "GISS") maxTrustLimit,
       Op.claimClaimableBalance "B1"] :=
  ⟨c5_claim_plan_shape.1 "B1" ⟨"native", "5", "GS"⟩ rfl,
   c5_claim_plan_shape.2 "B1" ⟨"USDC:GISS", "5", "GS"⟩ (Asset.alphanum "USDC" "GISS")
     (by decide)⟩

/-- C7 counterexample: the send-asset route's validity window is 30 time
units, not the 180 the claim asserts for every operation kind. -/
theorem c7_counterexample_send_timeout :
    sendAssetTxTimeout = 30 ∧ sendAssetTxTimeout ≠ 180 := by
  decide

/-- C7 amended: Remove Trustline, Claim Balance and Reject Balance carry a
180-unit validity window while Send Payment carries a 30-unit one; and every
operation submits at most once, never retrying past its window: each route's
gateway-call count is unchanged by the submission's outcome (a ledger
rejection triggers no further call, in particular no second submission) and
is bounded by the route's single load/submit sequence. -/
theorem c7_amended_timeouts :
    (removeTrustlineTxTimeout = 180 ∧ claimTxTimeout = 180 ∧ rejectTxTimeout = 180 ∧
      sendAssetTxTimeout = 30) ∧
    (∀ (s n b : String) (la : Except String AccountSnapshot)
        (lb : Except String ClaimableBalanceRecord) (su su' : Except SubmitError String),
      (claimRoute s n b ⟨la, lb, su⟩).2 = (claimRoute s n b ⟨la, lb, su'⟩).2 ∧
      (rejectRoute s n b ⟨la, lb, su⟩).2 = (rejectRoute s n b ⟨la, lb, su'⟩).2) ∧
    (∀ (s n c i : String) (la : Except String AccountSnapshot)
        (su su' : Except SubmitError String),
      (removeTrustlineRoute s n c i ⟨la, su⟩).2 = (removeTrustlineRoute s n c i ⟨la, su'⟩).2) ∧
    (∀ (s n r ac ai am : String) (la : Except JsError AccountSnapshot)
        (su su' : Except JsError String),
      (sendRoute s n r ac ai am ⟨la, su⟩).2 = (sendRoute s n r ac ai am ⟨la, su'⟩).2) ∧
    (∀ (s n b : String) (env : GatewayEnv),
      (claimRoute s n b env).2 ≤ 3 ∧ (rejectRoute s n b env).2 ≤ 3) ∧
    (∀ (s n c i : String) (env : RemoveEnv),
      (removeTrustlineRoute s n c i env).2 ≤ 2) ∧
    (∀ (s n r ac ai am : String) (env : SendEnv),
      (sendRoute s n r ac ai am env).2 ≤ 2) := by
  refine ⟨by decide, ?_, ?_, ?_, ?_, ?_, ?_⟩
  · intro s n b la lb su su'
    constructor <;>
      · simp only [claimRoute, rejectRoute]
        cases stdGuards s n (s == "" || n == "" || b == "") <;>
          cases la <;> cases lb <;> cases su <;> cases su' <;> rfl
  · intro s n c i la su su'
    simp only [removeTrustlineRoute]
    cases stdGuards s n (s == "" || n == "" || c == "" || i == "") <;>
      cases la <;> cases su <;> cases su' <;> rfl
  · intro s n r ac ai am la su su'
    simp only [sendRoute]
    by_cases h1 : (s == "" || r == "" || ac == "" || am == "") = true
    · rw [if_pos h1, if_pos h1]
    · rw [if_neg h1, if_neg h1]
      by_cases h2 : fromSecretOk s = false
      · rw [if_pos h2, if_pos h2]
      · rw [if_neg h2, if_neg h2]
        cases la with
        | error e => rfl
        | ok acct =>
          by_cases h3 : ac ≠ "XLM" ∧ ai = ""
          · rw [if_pos h3, if_pos h3]
          · rw [if_neg h3, if_neg h3]
            cases su <;> cases su' <;> rfl
  · intro s n b env
    obtain ⟨la, lb, su⟩ := env
    constructor <;>
      · simp only [claimRoute, rejectRoute]
        cases stdGuards s n (s == "" || n == "" || b == "") <;>
          cases la <;> cases lb <;> cases su <;> exact of_decide_eq_true rfl
  · intro s n c i env
    obtain ⟨la, su⟩ := env
    simp only [removeTrustlineRoute]
    cases stdGuards s n (s == "" || n == "" || c == "" || i == "") <;>
      cases la <;> cases su <;> exact of_decide_eq_true rfl
  · intro s n r ac ai am env
    obtain ⟨la, su⟩ := env
    simp only [sendRoute]
    by_cases h1 : (s == "" || r == "" || ac == "" || am == "") = true
    · rw [if_pos h1]; exact of_decide_eq_true rfl
    · rw [if_neg h1]
      by_cases h2 : fromSecretOk s = false
      · rw [if_pos h2]; exact of_decide_eq_true rfl
      · rw [if_neg h2]
        cases la with
        | error e => exact of_decide_eq_true rfl
        | ok acct =>
          by_cases h3 : ac ≠ "XLM" ∧ ai = ""
          · rw [if_pos h3]; exact of_decide_eq_true rfl
          · rw [if_neg h3]
            cases su <;> exact of_decide_eq_true rfl

/-- C8 counterexample: a ledger rejection whose error carries result codes —
the remove-trustline route's failure payload is only the error's message and
does not contain the codes. -/
theorem c8_counterexample_remove_codes_dropped :
    removeTrustlineSubmitErrorMsg ⟨"Request failed with status code 400", some "op_no_trust"⟩
      = "Request failed with status code 400" ∧
    ¬("op_no_trust".data <:+:
      (removeTrustlineSubmitErrorMsg
        ⟨"Request failed with status code 400", some "op_no_trust"⟩).data) := by
  decide

/-- C8 amended: the claim and reject routes preserve the ledger's result codes
verbatim (as the suffix of a "Transaction failed: " message) in the failure
payload; the remove-trustline route returns only the error's own message; and
the send-asset route's failure message is drawn only from the error's message,
the response title, or one of two fixed fallback strings — its catch block
never extracts result codes (its input carries none). -/
theorem c8_amended_result_codes :
    (∀ (e : SubmitError) (rc : String), e.resultCodes = some rc →
      claimSubmitErrorMsg e = "Transaction failed: " ++ rc ∧
      rejectSubmitErrorMsg e = "Transaction failed: " ++ rc) ∧
    (∀ e : SubmitError, removeTrustlineSubmitErrorMsg e = e.message) ∧
    (∀ e : JsError,
      (sendCatch e).2 = e.message ∨
      (∃ t, e.responseTitle = some t ∧ (sendCatch e).2 = t) ∨
      (sendCatch e).2 = "Recipient account not found" ∨
      (sendCatch e).2 = "Failed to send asset") := by
  refine ⟨fun e rc h => ⟨?_, ?_⟩, fun e => rfl, fun e => ?_⟩
  · rw [claimSubmitErrorMsg, h]
  · rw [rejectSubmitErrorMsg, h]
  · rw [sendCatch]
    by_cases h1 : "Invalid".data <:+: e.message.data
    · rw [if_pos h1]
      exact Or.inl rfl
    · rw [if_neg h1]
      by_cases h2 : e.responseStatus = some 400
      · rw [if_pos h2]
        cases ht : e.responseTitle with
        | none => exact Or.inl rfl
        | some t =>
          by_cases he : t = ""
          · subst he
            exact Or.inl rfl
          · refine Or.inr (Or.inl ⟨t, rfl, ?_⟩)
            show (if t = "" then e.message else t) = t
            exact if_neg he
      · rw [if_neg h2]
        by_cases h3 : "Not Found".data <:+: e.message.data
        · rw [if_pos h3]
          exact Or.inr (Or.inr (Or.inl rfl))
        · rw [if_neg h3]
          exact Or.inr (Or.inr (Or.inr rfl))

/-- C8 witness: the theorem applied to a concrete submission error carrying
result codes (claim and remove-trustline payloads) and to a concrete Horizon
400 rejection seen by the send-asset catch block. -/
theorem c8_amended_result_codes_witness :
    claimSubmitErrorMsg ⟨"Request failed", some "op_no_trust"⟩
      = "Transaction failed: op_no_trust" ∧
    removeTrustlineSubmitErrorMsg ⟨"Request failed", some "op_no_trust"⟩ = "Request failed" ∧
    ((sendCatch ⟨"Request failed", some 400, some "Transaction Failed"⟩).2
        = ("Request failed" : String) ∨
      (∃ t, (some "Transaction Failed" : Option String) = some t ∧
        (sendCatch ⟨"Request failed", some 400, some "Transaction Failed"⟩).2 = t) ∨
      (sendCatch ⟨"Request failed", some 400, some "Transaction Failed"⟩).2
        = "Recipient account not found" ∨
      (sendCatch ⟨"Request failed", some 400, some "Transaction Failed"⟩).2
        = "Failed to send asset") :=
  ⟨(c8_amended_result_codes.1 ⟨"Request failed", some "op_no_trust"⟩ "op_no_trust" rfl).1,
   c8_amended_result_codes.2.1 ⟨"Request failed", some "op_no_trust"⟩,
   c8_amended_result_codes.2.2 ⟨"Request failed", some 400, some "Transaction Failed"⟩⟩

/-- C9: an asset-identifier string that is not "native" and does not split on
":" into exactly two parts is parsed, without any exception path, to the
native/unknown fallback: composition treats it as null (native), the listing
reports code "XLM" and issuer "native", and the claim and reject plans are the
native-asset plans. -/
theorem c9_malformed_asset_fallback :
    ∀ a : String, a ≠ "native" → (jsSplit ':' a).length ≠ 2 →
      parseAssetOpt a = none ∧
      listingAsset a = ("XLM", "native") ∧
      (∀ (bid amount sponsor : String),
        claimPlan bid ⟨a, amount, sponsor⟩ = [Op.claimClaimableBalance bid]) ∧
      (∀ (bid amount sponsor : String),
        rejectPlan bid ⟨a, amount, sponsor⟩ =
          [Op.claimClaimableBalance bid, Op.payment sponsor Asset.native amount,
           Op.changeTrust Asset.native "0"]) := by
  intro a _hnative hsplit
  have hp : parseAssetOpt a = none := parseAssetOpt_of_not_two hsplit
  refine ⟨hp, listingAsset_of_not_two hsplit, fun bid amount sponsor => ?_,
    fun bid amount sponsor => ?_⟩
  · simp [claimPlan, hp]
  · simp [rejectPlan, hp]

/-- C9 witness: the theorem applied to the colonless string "FOO" and to the
doubly-colonned string "FOO:BAR:BAZ". -/
theorem c9_malformed_asset_fallback_witness :
    parseAssetOpt "FOO" = none ∧
    listingAsset "FOO:BAR:BAZ" = ("XLM", "native") ∧
    claimPlan "B1" ⟨"FOO", "5", "GS"⟩ = [Op.claimClaimableBalance "B1"] :=
  ⟨(c9_malformed_asset_fallback "FOO" (by decide) (by decide)).1,
   (c9_malformed_asset_fallback "FOO:BAR:BAZ" (by decide) (by decide)).2.1,
   (c9_malformed_asset_fallback "FOO" (by decide) (by decide)).2.2.1 "B1" "5" "GS"⟩

/-- C4 counterexample: the empty secret has the wrong sigil and the wrong
length, yet the claim route classifies it as a missing field, not as the
invalid-credential-format failure; no gateway call is made either way. -/
theorem c4_counterexample_empty_secret :
    ("" : String).length ≠ 56 ∧
    claimRoute "" "testnet" "B1" env0 = (⟨400, some "Missing required fields", none⟩, 0) ∧
    (some "Missing required fields" : Option String) ≠ some "Invalid secret key format" := by
  decide

/-- C4 amended: every non-empty malformed secret (wrong sigil, wrong length,
or failing the modelled cryptographic derivation), presented with the
operation's other required fields non-empty and a valid network selector, makes
the claim, reject and remove-trustline routes return the
invalid-credential-format failure with zero gateway calls; the send-asset
route, whose derivation failure is classified by its catch block, likewise
returns status 400 with the resolver's message and zero gateway calls. -/
theorem c4_amended_malformed_secret :
    (∀ (s n b : String) (env : GatewayEnv), s ≠ "" → (n = "public" ∨ n = "testnet") → b ≠ "" →
      (startsWithS s = false ∨ s.length ≠ 56 ∨ fromSecretOk s = false) →
      claimRoute s n b env = (⟨400, some "Invalid secret key format", none⟩, 0)) ∧
    (∀ (s n b : String) (env : GatewayEnv), s ≠ "" → (n = "public" ∨ n = "testnet") → b ≠ "" →
      (startsWithS s = false ∨ s.length ≠ 56 ∨ fromSecretOk s = false) →
      rejectRoute s n b env = (⟨400, some "Invalid secret key format", none⟩, 0)) ∧
    (∀ (s n c i : String) (env : RemoveEnv), s ≠ "" → (n = "public" ∨ n = "testnet") →
      c ≠ "" → i ≠ "" →
      (startsWithS s = false ∨ s.length ≠ 56 ∨ fromSecretOk s = false) →
      removeTrustlineRoute s n c i env = (⟨400, some "Invalid secret key format", none⟩, 0)) ∧
    (∀ (s n r ac ai am : String) (env : SendEnv), s ≠ "" → r ≠ "" → ac ≠ "" → am ≠ "" →
      fromSecretOk s = false →
      sendRoute s n r ac ai am env = (⟨400, some "Invalid secret key format", none⟩, 0)) := by
  refine ⟨?_, ?_, ?_, ?_⟩
  · intro s n b env hs hn hb hmal
    have hn' : n ≠ "" := by rcases hn with h | h <;> simp [h]
    have hmiss : (s == "" || n == "" || b == "") = false := by
      simp only [Bool.or_eq_false_iff, beq_eq_false_iff_ne, ne_eq]
      exact ⟨⟨hs, hn'⟩, hb⟩
    simp only [claimRoute]
    rw [stdGuards_malformed s n _ hmiss hn hmal]
  · intro s n b env hs hn hb hmal
    have hn' : n ≠ "" := by rcases hn with h | h <;> simp [h]
    have hmiss : (s == "" || n == "" || b == "") = false := by
      simp only [Bool.or_eq_false_iff, beq_eq_false_iff_ne, ne_eq]
      exact ⟨⟨hs, hn'⟩, hb⟩
    simp only [rejectRoute]
    rw [stdGuards_malformed s n _ hmiss hn hmal]
  · intro s n c i env hs hn hc hi hmal
    have hn' : n ≠ "" := by rcases hn with h | h <;> simp [h]
    have hmiss : (s == "" || n == "" || c == "" || i == "") = false := by
      simp only [Bool.or_eq_false_iff, beq_eq_false_iff_ne, ne_eq]
      exact ⟨⟨⟨hs, hn'⟩, hc⟩, hi⟩
    simp only [removeTrustlineRoute]
    rw [stdGuards_malformed s n _ hmiss hn hmal]
  · intro s n r ac ai am env hs hr hac ham hfs
    have hmiss : (s == "" || r == "" || ac == "" || am == "") = false := by
      simp only [Bool.or_eq_false_iff, beq_eq_false_iff_ne, ne_eq]
      exact ⟨⟨⟨hs, hr⟩, hac⟩, ham⟩
    rw [sendRoute, hmiss]
    rw [if_neg Bool.false_ne_true, if_pos hfs]
    decide

/-- C4 witness: the amended theorem applied to the spec's scenario secret
"S" followed by 55 "A" characters, which passes the sigil and length
pre-checks but fails the modelled checksum. -/
theorem c4_amended_malformed_secret_witness :
    claimRoute badSecret "testnet" "B1" env0
      = (⟨400, some "Invalid secret key format", none⟩, 0) ∧
    rejectRoute badSecret "testnet" "B1" env0
      = (⟨400, some "Invalid secret key format", none⟩, 0) ∧
    removeTrustlineRoute badSecret "testnet" "USDC" "GISS" removeEnv0
      = (⟨400, some "Invalid secret key format", none⟩, 0) ∧
    sendRoute badSecret "testnet" "GDEST" "USDC" "GISS" "5" sendEnv0
      = (⟨400, some "Invalid secret key format", none⟩, 0) :=
  ⟨c4_amended_malformed_secret.1 badSecret "testnet" "B1" env0 (by decide) (Or.inr rfl)
      (by decide) (Or.inr (Or.inr badSecret_fromSecret_fails)),
   c4_amended_malformed_secret.2.1 badSecret "testnet" "B1" env0 (by decide) (Or.inr rfl)
      (by decide) (Or.inr (Or.inr badSecret_fromSecret_fails)),
   c4_amended_malformed_secret.2.2.1 badSecret "testnet" "USDC" "GISS" removeEnv0 (by decide)
      (Or.inr rfl) (by decide) (by decide) (Or.inr (Or.inr badSecret_fromSecret_fails)),
   c4_amended_malformed_secret.2.2.2 badSecret "testnet" "GDEST" "USDC" "GISS" "5" sendEnv0
      (by decide) (by decide) (by decide) (by decide) badSecret_fromSecret_fails⟩

/-- C10 counterexample: a matching balance line whose balance string is empty
differs from "0", yet no payment step is emitted — the code's guard is
truthiness and inequality with "0", not inequality with "0" alone. -/
theorem c10_counterexample_empty_balance :
    matchingTrustline [⟨some "USDC", some "GISS", ""⟩] "USDC" "GISS"
      = some ⟨some "USDC", some "GISS", ""⟩ ∧
    ("" : String) ≠ "0" ∧
    removeTrustlinePlan ⟨[⟨some "USDC", some "GISS", ""⟩]⟩ "USDC" "GISS"
      = [Op.changeTrust (Asset.alphanum "USDC" "GISS") "0"] := by
  decide

/-- C10 amended: for every matching balance line whose balance string is
non-empty and differs from the literal "0" — including the zero balance
rendered "0.0000000" — the plan is the payment of exactly that balance string
to the issuer followed by the zero-limit trust change. -/
theorem c10_amended_string_zero_guard :
    ∀ (acct : AccountSnapshot) (code issuer : String) (line : BalanceLine),
      matchingTrustline acct.balances code issuer = some line →
      line.balance ≠ "0" → line.balance ≠ "" →
      removeTrustlinePlan acct code issuer =
        [Op.payment issuer (Asset.alphanum code issuer) line.balance,
         Op.changeTrust (Asset.alphanum code issuer) "0"] :=
  fun _ _ _ _ h h0 hne => removeTrustlinePlan_found h h0 hne

/-- C10 witness: the amended theorem applied to a line whose balance string is
"0.0000000", a zero amount that the string guard treats as nonzero. -/
theorem c10_amended_string_zero_guard_witness :
    removeTrustlinePlan ⟨[⟨some "USDC", some "GISS", "0.0000000"⟩]⟩ "USDC" "GISS" =
      [Op.payment "GISS" (Asset.alphanum "USDC" "GISS") "0.0000000",
       Op.changeTrust (Asset.alphanum "USDC" "GISS") "0"] :=
  c10_amended_string_zero_guard ⟨[⟨some "USDC", some "GISS", "0.0000000"⟩]⟩ "USDC" "GISS"
    ⟨some "USDC", some "GISS", "0.0000000"⟩ (by decide) (by decide) (by decide)

end Stellar
